import Mathlib

/-!
A verification development for the "Brian's Songs" single-page application
(`src/src/App.tsx`, variant B in `src/unnamed/part_000`).

The TypeScript/React core is shallowly embedded: each React `useState` slice
becomes a field of an explicit state record, each event handler becomes a pure
state-transition function, and the memoised `visibleSongs` computation becomes
a pure function of its input tuple.  JavaScript's stable `Array.prototype.sort`
is modelled by a stable sort (`List.insertionSort`) with the comparator
translated to a "comes not after" relation, `String.prototype.includes` by substring search on
character lists, and `Date.parse` of the ISO `YYYY-MM-DD` release dates by a
strictly monotone numeric key.
-/

/-- A catalog entry, mirroring the song objects of `SEED_SONGS` and the shape
consumed by the filtering/sorting/playback code in `App.tsx`. -/
structure Song where
  id : Nat
  title : String
  slug : String
  duration : String
  releaseDate : String
  genre : String
  moods : List String
  story : String
  lyrics : String
  audioUrl : String
  likes : Nat
  visibility : String
deriving DecidableEq

/-- Model of JavaScript `s.toLowerCase()` (character-wise lowering; the
catalog text is ASCII). -/
def strToLower (s : String) : String :=
  String.mk (s.data.map Char.toLower)

/-- Whitespace recognised by the model of `s.trim()`. -/
def isWsChar (c : Char) : Bool :=
  c = ' ' || c = '\t' || c = '\n' || c = '\r'

/-- Model of JavaScript `s.trim()`: strip leading and trailing whitespace. -/
def strTrim (s : String) : String :=
  String.mk (((s.data.dropWhile isWsChar).reverse.dropWhile isWsChar).reverse)

/-- Model of JavaScript `s.startsWith(p)`. -/
def strStartsWith (s p : String) : Bool :=
  p.data.isPrefixOf s.data

/-- Lexicographic comparison of character lists, the order underlying
JavaScript's default string `<`. -/
def charListLt : List Char → List Char → Bool
  | [], [] => false
  | [], _ :: _ => true
  | _ :: _, [] => false
  | a :: as, b :: bs => if a < b then true else if b < a then false else charListLt as bs

/-- Strict string comparison on the underlying characters. -/
def strLt (a b : String) : Bool :=
  charListLt a.data b.data

/-- Non-strict string comparison: `a ≤ b` iff `¬(b < a)`. -/
def strLe (a b : String) : Bool :=
  !(strLt b a)

/-- Model of JavaScript `haystack.includes(needle)`: `needle` occurs as a
contiguous substring of `haystack`. -/
def strIncludes (haystack needle : String) : Bool :=
  haystack.toList.tails.any (fun t => needle.toList.isPrefixOf t)

/-- The text-filter predicate from `visibleSongs` in `App.tsx` (lines 325-330):
`s.title.toLowerCase().includes(q) || s.genre.toLowerCase().includes(q) ||
s.moods.join(" ").toLowerCase().includes(q)`. -/
def matchesQuery (q : String) (s : Song) : Bool :=
  strIncludes (strToLower s.title) q || strIncludes (strToLower s.genre) q ||
    strIncludes (strToLower (String.intercalate " " s.moods)) q

/-- Decimal value of a digit run. -/
def natOfDigits (l : List Char) : Nat :=
  l.foldl (fun n c => n * 10 + (c.toNat - 48)) 0

/-- Numeric key for a release date: `new Date(s).getTime()` is modelled by a
strictly monotone encoding of a well-formed ISO `YYYY-MM-DD` string, so the
comparator `byDateDesc` orders songs identically. -/
def dateVal (s : String) : Nat :=
  match s.data.splitOn '-' with
  | [y, m, d] => natOfDigits y * 10000 + natOfDigits m * 100 + natOfDigits d
  | _ => 0

/-- Effective like weight used by the `byLikesDesc` comparator:
`s.likes + (liked[s.id] ? 1 : 0)`.  The like overlay is modelled as the list of
song identifiers whose overlay entry is truthy. -/
def likeWeight (liked : List Nat) (s : Song) : Nat :=
  s.likes + (if s.id ∈ liked then 1 else 0)

/-- The `byDateDesc` comparator as a "may come before" boolean relation: the comparator
`new Date(b.releaseDate) - new Date(a.releaseDate)` is `≤ 0` exactly when
`a`'s date is at least `b`'s. -/
def dateLe (a b : Song) : Bool :=
  dateVal b.releaseDate ≤ dateVal a.releaseDate

/-- The `byLikesDesc` comparator as a "may come before" boolean relation. -/
def likesLe (liked : List Nat) (a b : Song) : Bool :=
  likeWeight liked b ≤ likeWeight liked a

/-- Model of `a.localeCompare(b) <= 0` for the title comparator: a primary
case-insensitive comparison, ties resolved by the raw string order.  This is a
total preorder agreeing with the default locale collation on the ASCII titles
the catalog uses. -/
def localeLe (a b : String) : Bool :=
  if strLt (strToLower a) (strToLower b) then true
  else if strLt (strToLower b) (strToLower a) then false
  else strLe a b

/-- The `byTitleAsc` comparator as a "may come before" boolean relation. -/
def titleLe (a b : Song) : Bool :=
  localeLe a.title b.title

/-- The `byDateDesc` comparator as a decidable relation, for the stable sort. -/
def dateRel : Song → Song → Prop := fun a b => dateLe a b = true

instance : DecidableRel dateRel := fun a b => instDecidableEqBool _ _

/-- The `byLikesDesc` comparator as a decidable relation, for the stable sort. -/
def likesRel (liked : List Nat) : Song → Song → Prop := fun a b => likesLe liked a b = true

instance (liked : List Nat) : DecidableRel (likesRel liked) := fun a b => instDecidableEqBool _ _

/-- The `byTitleAsc` comparator as a decidable relation, for the stable sort. -/
def titleRel : Song → Song → Prop := fun a b => titleLe a b = true

instance : DecidableRel titleRel := fun a b => instDecidableEqBool _ _

/-- The visibility gate of `visibleSongs` (lines 317-322): off the `/private`
route only public songs pass; on `/private` the list is empty unless the
unlock flag is set, in which case every song passes. -/
def gateSongs (songs : List Song) (path : String) (privateUnlocked : Bool) : List Song :=
  if path ≠ "/private" then songs.filter (fun s => s.visibility == "public")
  else if !privateUnlocked then []
  else songs

/-- The gate followed by the text filter of `visibleSongs` (lines 323-331):
with `q := query.trim().toLowerCase()`, a non-empty `q` keeps the songs
matching title/genre/moods, an empty `q` keeps everything. -/
def filteredSongs (songs : List Song) (path : String) (privateUnlocked : Bool)
    (query : String) : List Song :=
  let base := gateSongs songs path privateUnlocked
  let q := strToLower (strTrim query)
  if q ≠ "" then base.filter (matchesQuery q) else base

/-- The ordering stage of `visibleSongs` (lines 333-341): JavaScript's stable
`Array.prototype.sort`, modelled by a stable sort (`List.insertionSort`), by
the comparator selected by the sort mode, any mode other than `liked` and
`az` falling through to `byDateDesc`. -/
def sortSongs (sortMode : String) (liked : List Nat) (base : List Song) : List Song :=
  if sortMode == "liked" then List.insertionSort (likesRel liked) base
  else if sortMode == "az" then List.insertionSort titleRel base
  else List.insertionSort dateRel base

/-- The full `visibleSongs` memo of `App.tsx` (lines 316-344) as a pure
function of its dependency tuple. -/
def visibleSongs (songs : List Song) (path : String) (privateUnlocked : Bool)
    (query : String) (sortMode : String) (liked : List Nat) : List Song :=
  sortSongs sortMode liked (filteredSongs songs path privateUnlocked query)

/-- The state of the `App` component in `App.tsx`: route path, search text, the
persisted slices the core uses, and the three player slices
(`queue`, `queueIndex`, `isPlaying`). -/
structure AppState where
  path : String
  query : String
  songs : List Song
  liked : List Nat
  privateUnlocked : Bool
  sortMode : String
  queue : List Nat
  queueIndex : Option Nat
  isPlaying : Bool
deriving DecidableEq

/-- The `visibleSongs` memo evaluated at the current state. -/
def AppState.visible (st : AppState) : List Song :=
  visibleSongs st.songs st.path st.privateUnlocked st.query st.sortMode st.liked

/-- Typing into the search box: `setQuery(e.target.value)`. -/
def setQueryEv (st : AppState) (q : String) : AppState :=
  { st with query := q }

/-- Choosing a sort mode: `setSortMode(b.key)`. -/
def setSortModeEv (st : AppState) (m : String) : AppState :=
  { st with sortMode := m }

/-- Navigation (or an external hash change): the only state written is `path`. -/
def navigateEv (st : AppState) (dest : String) : AppState :=
  { st with path := dest }

/-- Unlocking or re-locking the private area: `setPrivateUnlocked(b)`. -/
def setPrivateUnlockedEv (st : AppState) (b : Bool) : AppState :=
  { st with privateUnlocked := b }

/-- Toggling the like overlay for a song:
`setLiked(prev => ({ ...prev, [id]: !prev[id] }))`, on the truthy-id-set
representation of the overlay. -/
def toggleLikeEv (st : AppState) (id : Nat) : AppState :=
  { st with liked := if id ∈ st.liked then st.liked.erase id else id :: st.liked }

/-- Model of JavaScript `list.indexOf(x)` restricted to the found/not-found
outcome: the index of the first occurrence of `x`, if any. -/
def idxOf? (x : Nat) : List Nat → Option Nat
  | [] => none
  | y :: ys => if y = x then some 0 else (idxOf? x ys).map (fun i => i + 1)

/-- The handler `playBySong` (lines 367-377): snapshot the visible list's identifiers as
the new queue; if the requested song's id is absent (`indexOf` returns `-1`)
do nothing, otherwise install the snapshot, point the cursor at the song, mark
playing, and navigate to the song's detail route when not already on one. -/
def playBySong (st : AppState) (song : Song) : AppState :=
  let newQueue := st.visible.map (fun s => s.id)
  match idxOf? song.id newQueue with
  | none => st
  | some startIndex =>
    let st1 := { st with queue := newQueue, queueIndex := some startIndex, isPlaying := true }
    if strStartsWith st1.path "/song/" then st1
    else { st1 with path := "/song/" ++ song.slug }

/-- The handler `playAllVisible` (lines 380-389): no-op on an empty visible list;
otherwise snapshot all visible identifiers, start at cursor 0, mark playing,
and navigate to the first song's detail route when not already on one. -/
def playAllVisible (st : AppState) : AppState :=
  let vis := st.visible
  if vis.length = 0 then st
  else
    let ids := vis.map (fun s => s.id)
    let st1 := { st with queue := ids, queueIndex := some 0, isPlaying := true }
    match ids.head? with
    | none => st1
    | some id0 =>
      match st.songs.find? (fun s => s.id == id0) with
      | none => st1
      | some first =>
        if strStartsWith st1.path "/song/" then st1
        else { st1 with path := "/song/" ++ first.slug }

/-- The handler `stepQueue` (lines 401-405): no-op on an empty queue or absent cursor;
otherwise the cursor becomes `(queueIndex + dir + queue.length) % queue.length`
(JavaScript `%` is truncated division remainder, hence `Int.tmod`; its callers
pass `dir = ±1`, for which the result is non-negative). -/
def stepQueue (st : AppState) (dir : Int) : AppState :=
  if st.queue.length = 0 then st
  else
    match st.queueIndex with
    | none => st
    | some i =>
      let len : Int := st.queue.length
      { st with queueIndex := some ((((i : Int) + dir + len).tmod len).toNat) }

/-- The `currentSong` memo (lines 360-364): resolve the identifier stored at
`queue[queueIndex]` against the full catalog. -/
def currentSongOf (st : AppState) : Option Song :=
  match st.queueIndex with
  | none => none
  | some i =>
    match st.queue.get? i with
    | none => none
    | some id => st.songs.find? (fun s => s.id == id)

/-- Parsed JSON values. -/
inductive Json where
  | null
  | bool (b : Bool)
  | num (n : Int)
  | str (s : String)
  | arr (elems : List Json)
  | obj (fields : List (String × Json))

/-- JavaScript truthiness of a parsed JSON value (`!parsed`). -/
def Json.truthy : Json → Bool
  | .null => false
  | .bool b => b
  | .num n => n != 0
  | .str s => s != ""
  | .arr _ => true
  | .obj _ => true

/-- The check `typeof v === "object"`: true for objects, arrays, and `null`. -/
def Json.typeofIsObject : Json → Bool
  | .null => true
  | .arr _ => true
  | .obj _ => true
  | _ => false

/-- The check `Array.isArray(v)`. -/
def Json.isArr : Json → Bool
  | .arr _ => true
  | _ => false

/-- The check `typeof v === "boolean"`. -/
def Json.isBool : Json → Bool
  | .bool _ => true
  | _ => false

/-- The check `typeof v === "string"`. -/
def Json.isStr : Json → Bool
  | .str _ => true
  | _ => false

/-- Property access `parsed.key`: defined on objects, `undefined` (`none`)
elsewhere (arrays and primitives carry no such string properties). -/
def Json.getProp (j : Json) (key : String) : Option Json :=
  match j with
  | .obj fields => (fields.find? (fun kv => kv.fst == key)).map (fun kv => kv.snd)
  | _ => none

/-- The six persisted slices the Data page's import/export touches, each held
as the raw value the corresponding `set` call would store. -/
structure StoreState where
  songs : Json
  liked : Json
  comments : Json
  guestbook : Json
  privateUnlocked : Json
  sortMode : Json

/-- The handler `onImportFile` (lines 1270-1293): a failed parse or a falsy/non-`object`
top level throws, which is caught and reported as
`"Import failed: invalid JSON."` with no slice written; otherwise each field is
applied independently under its own type guard and completion is reported.
The returned string is the `setStatus` message. -/
def onImportFile (st : StoreState) (payload : Option Json) : StoreState × String :=
  match payload with
  | none => (st, "Import failed: invalid JSON.")
  | some parsed =>
    if !parsed.truthy || !parsed.typeofIsObject then (st, "Import failed: invalid JSON.")
    else
      let st := match parsed.getProp "songs" with
        | some v => if v.isArr then { st with songs := v } else st
        | none => st
      let st := match parsed.getProp "liked" with
        | some v => if v.truthy && v.typeofIsObject then { st with liked := v } else st
        | none => st
      let st := match parsed.getProp "comments" with
        | some v => if v.truthy && v.typeofIsObject then { st with comments := v } else st
        | none => st
      let st := match parsed.getProp "guestbook" with
        | some v => if v.isArr then { st with guestbook := v } else st
        | none => st
      let st := match parsed.getProp "privateUnlocked" with
        | some v => if v.isBool then { st with privateUnlocked := v } else st
        | none => st
      let st := match parsed.getProp "sortMode" with
        | some v => if v.isStr then { st with sortMode := v } else st
        | none => st
      (st, "Import complete.")

/-!
The second source variant (`src/unnamed/part_000`) keeps no queue snapshot:
its player state is a single `activeIndex` into the *live* `visibleSongs`
list, which the `MiniPlayer` receives as its `songs` prop.
-/

/-- The `App` state of the `part_000` variant: same slices, but the player
holds only `activeIndex` and `isPlaying`. -/
structure AppStateB where
  path : String
  query : String
  songs : List Song
  liked : List Nat
  privateUnlocked : Bool
  sortMode : String
  activeIndex : Option Nat
  isPlaying : Bool
deriving DecidableEq

/-- The `visibleSongs` memo of the `part_000` variant (textually identical to
the one in `App.tsx`). -/
def AppStateB.visible (st : AppStateB) : List Song :=
  visibleSongs st.songs st.path st.privateUnlocked st.query st.sortMode st.liked

/-- The handler `playBySong` in `part_000` (lines 318-325): look the song up by id in the
live visible list with `findIndex`; when found, store that index as
`activeIndex`, mark playing, and navigate to the detail route when not
already on one. -/
def playBySongB (st : AppStateB) (song : Song) : AppStateB :=
  match st.visible.findIdx? (fun s => s.id == song.id) with
  | none => st
  | some idx =>
    let st1 := { st with activeIndex := some idx, isPlaying := true }
    if strStartsWith st1.path "/song/" then st1
    else { st1 with path := "/song/" ++ song.slug }

/-- Typing into the search box in the `part_000` variant. -/
def setQueryEvB (st : AppStateB) (q : String) : AppStateB :=
  { st with query := q }

/-- Choosing a sort mode in the `part_000` variant. -/
def setSortModeEvB (st : AppStateB) (m : String) : AppStateB :=
  { st with sortMode := m }

/-- The track the `part_000` `MiniPlayer` considers current:
`songs[activeIndex]` where its `songs` prop is the live `visibleSongs`
(lines 440-442, 1096). -/
def currentSongB (st : AppStateB) : Option Song :=
  match st.activeIndex with
  | none => none
  | some i => st.visible.get? i

/-! ### Helper lemmas -/

theorem idxOf?_eq_none_iff {x : Nat} : ∀ {l : List Nat}, idxOf? x l = none ↔ x ∉ l
  | [] => by simp [idxOf?]
  | y :: ys => by
    by_cases h : y = x
    · simp [idxOf?, h]
    · rcases ho : idxOf? x ys with _ | i
      · have hm : x ∉ ys := (idxOf?_eq_none_iff).mp ho
        simp only [idxOf?, if_neg h, ho]
        constructor
        · intro _ hmem
          rcases List.mem_cons.mp hmem with rfl | hc
          · exact h rfl
          · exact hm hc
        · intro _
          rfl
      · have hm : x ∈ ys := by
          by_contra hc
          rw [(idxOf?_eq_none_iff).mpr hc] at ho
          exact Option.noConfusion ho
        simp only [idxOf?, if_neg h, ho]
        constructor
        · intro hc
          simp at hc
        · intro hc
          exact absurd (List.mem_cons.mpr (Or.inr hm)) hc

theorem idxOf?_isSome_of_mem {x : Nat} {l : List Nat} (h : x ∈ l) :
    ∃ i, idxOf? x l = some i := by
  rcases ho : idxOf? x l with _ | i
  · exact absurd h (idxOf?_eq_none_iff.mp ho)
  · exact ⟨i, rfl⟩

theorem dateLe_trans (a b c : Song) : dateLe a b → dateLe b c → dateLe a c := by
  simp only [dateLe, decide_eq_true_eq]
  omega

theorem dateLe_total (a b : Song) : dateLe a b || dateLe b a := by
  simp only [dateLe, Bool.or_eq_true, decide_eq_true_eq]
  omega

theorem likesLe_trans (liked : List Nat) (a b c : Song) :
    likesLe liked a b → likesLe liked b c → likesLe liked a c := by
  simp only [likesLe, decide_eq_true_eq]
  omega

theorem likesLe_total (liked : List Nat) (a b : Song) :
    likesLe liked a b || likesLe liked b a := by
  simp only [likesLe, Bool.or_eq_true, decide_eq_true_eq]
  omega

theorem charListLt_irrefl : ∀ l : List Char, charListLt l l = false
  | [] => rfl
  | a :: as => by
    rw [charListLt, if_neg (lt_irrefl a), if_neg (lt_irrefl a)]
    exact charListLt_irrefl as

theorem charListLt_cases {x y : Char} {xs ys : List Char}
    (h : charListLt (x :: xs) (y :: ys) = true) :
    x < y ∨ (x = y ∧ charListLt xs ys = true) := by
  by_cases h1 : x < y
  · exact Or.inl h1
  · by_cases h2 : y < x
    · rw [charListLt, if_neg h1, if_pos h2] at h
      exact Bool.noConfusion h
    · rw [charListLt, if_neg h1, if_neg h2] at h
      exact Or.inr ⟨le_antisymm (not_lt.mp h2) (not_lt.mp h1), h⟩

theorem charListLt_cons_of {x y : Char} {xs ys : List Char}
    (h : x < y ∨ (x = y ∧ charListLt xs ys = true)) :
    charListLt (x :: xs) (y :: ys) = true := by
  rcases h with h | ⟨rfl, h⟩
  · rw [charListLt, if_pos h]
  · rw [charListLt, if_neg (lt_irrefl x), if_neg (lt_irrefl x)]
    exact h

theorem charListLt_trans : ∀ {a b c : List Char},
    charListLt a b = true → charListLt b c = true → charListLt a c = true
  | [], [], _, h1, _ => absurd h1 (by simp [charListLt])
  | [], _ :: _, [], _, h2 => absurd h2 (by simp [charListLt])
  | [], _ :: _, _ :: _, _, _ => rfl
  | _ :: _, [], _, h1, _ => absurd h1 (by simp [charListLt])
  | _ :: _, _ :: _, [], _, h2 => absurd h2 (by simp [charListLt])
  | x :: xs, y :: ys, z :: zs, h1, h2 => by
    rcases charListLt_cases h1 with hx | ⟨hxe, hx⟩
    · rcases charListLt_cases h2 with hy | ⟨hye, hy⟩
      · exact charListLt_cons_of (Or.inl (lt_trans hx hy))
      · exact charListLt_cons_of (Or.inl (hye ▸ hx))
    · rcases charListLt_cases h2 with hy | ⟨hye, hy⟩
      · exact charListLt_cons_of (Or.inl (hxe ▸ hy))
      · exact charListLt_cons_of (Or.inr ⟨hxe.trans hye, charListLt_trans hx hy⟩)

theorem charListLt_connex : ∀ {a b : List Char},
    charListLt a b = false → charListLt b a = false → a = b
  | [], [], _, _ => rfl
  | [], _ :: _, h1, _ => absurd h1 (by simp [charListLt])
  | _ :: _, [], _, h2 => absurd h2 (by simp [charListLt])
  | x :: xs, y :: ys, h1, h2 => by
    by_cases hx : x < y
    · rw [charListLt, if_pos hx] at h1
      exact Bool.noConfusion h1
    · by_cases hy : y < x
      · rw [charListLt, if_pos hy] at h2
        exact Bool.noConfusion h2
      · have hxy : x = y := le_antisymm (not_lt.mp hy) (not_lt.mp hx)
        subst hxy
        rw [charListLt, if_neg hx, if_neg hx] at h1
        rw [charListLt, if_neg hx, if_neg hx] at h2
        rw [charListLt_connex h1 h2]

theorem charListLt_asymm {a b : List Char} (h : charListLt a b = true) :
    charListLt b a = false := by
  cases hb : charListLt b a
  · rfl
  · have := charListLt_trans h hb
    rw [charListLt_irrefl] at this
    exact Bool.noConfusion this

theorem strLt_trans {a b c : String} (h1 : strLt a b = true) (h2 : strLt b c = true) :
    strLt a c = true :=
  charListLt_trans h1 h2

theorem strLt_asymm {a b : String} (h : strLt a b = true) : strLt b a = false :=
  charListLt_asymm h

theorem strLt_connex {a b : String} (h1 : strLt a b = false) (h2 : strLt b a = false) :
    a = b := by
  have hd : a.data = b.data := charListLt_connex h1 h2
  cases a
  cases b
  exact congrArg String.mk hd

theorem strLt_irrefl (a : String) : strLt a a = false :=
  charListLt_irrefl a.data

theorem strLe_total (a b : String) : strLe a b || strLe b a := by
  cases hb : strLt b a
  · simp [strLe, hb]
  · simp [strLe, hb, strLt_asymm hb]

theorem strLe_trans {a b c : String} (h1 : strLe a b = true) (h2 : strLe b c = true) :
    strLe a c = true := by
  simp only [strLe, Bool.not_eq_true'] at h1 h2 ⊢
  cases hc : strLt c a
  · rfl
  · exfalso
    cases hcb : strLt c b
    · cases hbc : strLt b c
      · have : b = c := strLt_connex hbc hcb
        subst this
        rw [hc] at h1
        exact Bool.noConfusion h1
      · have := strLt_trans hbc hc
        rw [this] at h1
        exact Bool.noConfusion h1
    · rw [hcb] at h2
      exact Bool.noConfusion h2

theorem strLe_refl (a : String) : strLe a a = true := by
  simp [strLe, strLt_irrefl]

theorem localeLe_elim {a b : String} (h : localeLe a b = true) :
    strLt (strToLower a) (strToLower b) = true ∨
      (strToLower a = strToLower b ∧ strLe a b = true) := by
  by_cases h1 : strLt (strToLower a) (strToLower b) = true
  · exact Or.inl h1
  · rw [Bool.not_eq_true] at h1
    by_cases h2 : strLt (strToLower b) (strToLower a) = true
    · rw [localeLe, if_neg (by simp [h1]), if_pos h2] at h
      exact Bool.noConfusion h
    · rw [Bool.not_eq_true] at h2
      rw [localeLe, if_neg (by simp [h1]), if_neg (by simp [h2])] at h
      exact Or.inr ⟨strLt_connex h1 h2, h⟩

theorem localeLe_intro {a b : String}
    (h : strLt (strToLower a) (strToLower b) = true ∨
      (strToLower a = strToLower b ∧ strLe a b = true)) :
    localeLe a b = true := by
  rcases h with h | ⟨he, h⟩
  · rw [localeLe, if_pos h]
  · rw [localeLe, if_neg (by simp [he, strLt_irrefl]), if_neg (by simp [he, strLt_irrefl])]
    exact h

theorem localeLe_trans (a b c : String) :
    localeLe a b → localeLe b c → localeLe a c := by
  intro hab hbc
  rcases localeLe_elim hab with h1 | ⟨h1, h1b⟩
  · rcases localeLe_elim hbc with h2 | ⟨h2, _⟩
    · exact localeLe_intro (Or.inl (strLt_trans h1 h2))
    · exact localeLe_intro (Or.inl (h2 ▸ h1))
  · rcases localeLe_elim hbc with h2 | ⟨h2, h2b⟩
    · exact localeLe_intro (Or.inl (h1 ▸ h2))
    · exact localeLe_intro (Or.inr ⟨h1.trans h2, strLe_trans h1b h2b⟩)

theorem localeLe_total (a b : String) : localeLe a b || localeLe b a := by
  rw [Bool.or_eq_true]
  cases h1 : strLt (strToLower a) (strToLower b)
  · cases h2 : strLt (strToLower b) (strToLower a)
    · have he : strToLower a = strToLower b := strLt_connex h1 h2
      have hst : strLe a b = true ∨ strLe b a = true := by
        have hh := strLe_total a b
        rw [Bool.or_eq_true] at hh
        exact hh
      rcases hst with h | h
      · exact Or.inl (localeLe_intro (Or.inr ⟨he, h⟩))
      · exact Or.inr (localeLe_intro (Or.inr ⟨he.symm, h⟩))
    · exact Or.inr (localeLe_intro (Or.inl h2))
  · exact Or.inl (localeLe_intro (Or.inl h1))

theorem titleLe_trans (a b c : Song) : titleLe a b → titleLe b c → titleLe a c :=
  localeLe_trans a.title b.title c.title

theorem titleLe_total (a b : Song) : titleLe a b || titleLe b a :=
  localeLe_total a.title b.title

/-- The sorting stage permutes its input, whatever the sort mode. -/
theorem sortSongs_perm (sortMode : String) (liked : List Nat) (base : List Song) :
    List.Perm (sortSongs sortMode liked base) base := by
  unfold sortSongs
  by_cases h1 : sortMode == "liked"
  · simp only [h1, if_true]
    exact List.perm_insertionSort _ base
  · by_cases h2 : sortMode == "az"
    · simp only [h1, h2, if_false, if_true]
      exact List.perm_insertionSort _ base
    · simp only [h1, h2, if_false]
      exact List.perm_insertionSort _ base

/-- The full `visibleSongs` computation permutes the gated-and-filtered list. -/
theorem visibleSongs_perm_filteredSongs (songs : List Song) (path : String) (u : Bool)
    (query sortMode : String) (liked : List Nat) :
    List.Perm (visibleSongs songs path u query sortMode liked)
      (filteredSongs songs path u query) :=
  sortSongs_perm sortMode liked (filteredSongs songs path u query)

theorem length_gateSongs_le (songs : List Song) (path : String) (u : Bool) :
    (gateSongs songs path u).length ≤ songs.length := by
  unfold gateSongs
  split
  · exact List.length_filter_le _ _
  · split
    · simp
    · exact le_rfl

theorem length_filteredSongs_le (songs : List Song) (path : String) (u : Bool)
    (query : String) :
    (filteredSongs songs path u query).length ≤ songs.length := by
  simp only [filteredSongs]
  split
  · exact le_trans (List.length_filter_le _ _) (length_gateSongs_le songs path u)
  · exact length_gateSongs_le songs path u

theorem mem_gate_of_mem_filtered {songs : List Song} {path : String} {u : Bool}
    {query : String} {s : Song} (h : s ∈ filteredSongs songs path u query) :
    s ∈ gateSongs songs path u := by
  simp only [filteredSongs] at h
  split at h
  · exact List.mem_of_mem_filter h
  · exact h

/-! ### Concrete material used by witnesses and counterexamples -/

/-- A public July release. -/
def songA : Song :=
  { id := 1, title := "alpha", slug := "alpha", duration := "3:00",
    releaseDate := "2025-07-15", genre := "rock", moods := ["calm"],
    story := "sa", lyrics := "la", audioUrl := "", likes := 5,
    visibility := "public" }

/-- A public August release. -/
def songB : Song :=
  { id := 2, title := "beta", slug := "beta", duration := "4:00",
    releaseDate := "2025-08-10", genre := "blues", moods := ["raw"],
    story := "sb", lyrics := "lb", audioUrl := "", likes := 3,
    visibility := "public" }

/-- A private June release. -/
def songC : Song :=
  { id := 3, title := "carol", slug := "carol", duration := "4:30",
    releaseDate := "2025-06-14", genre := "country", moods := ["soft"],
    story := "sc", lyrics := "lc", audioUrl := "", likes := 9,
    visibility := "private" }

/-- A second public July release, tying `songA`'s date. -/
def songD : Song :=
  { id := 4, title := "delta", slug := "delta", duration := "2:30",
    releaseDate := "2025-07-15", genre := "folk", moods := ["warm"],
    story := "sd", lyrics := "ld", audioUrl := "", likes := 1,
    visibility := "public" }

/-- A fresh session on the music page with the sample catalog. -/
def st0 : AppState :=
  { path := "/music", query := "", songs := [songA, songB, songC],
    liked := [], privateUnlocked := false, sortMode := "newest",
    queue := [], queueIndex := none, isPlaying := false }

/-- A state with a loaded three-track queue and the cursor on the last track. -/
def stQ : AppState :=
  { st0 with queue := [10, 20, 30], queueIndex := some 2, isPlaying := true }

/-! ### Claims -/

/-- C1.  Queue snapshot stability: the search-text, sort-mode, route,
unlock-flag, and like-overlay events each write only their own state slice, so
for every state (in particular any state reached by `playBySong` or
`playAllVisible`) they leave the queue contents and the cursor untouched;
only the playback-initiation and step operations write those slices. -/
theorem C1_queue_snapshot_stability (st : AppState) (q m dest : String)
    (b : Bool) (id : Nat) :
    ((setQueryEv st q).queue = st.queue ∧ (setQueryEv st q).queueIndex = st.queueIndex) ∧
    ((setSortModeEv st m).queue = st.queue ∧ (setSortModeEv st m).queueIndex = st.queueIndex) ∧
    ((navigateEv st dest).queue = st.queue ∧ (navigateEv st dest).queueIndex = st.queueIndex) ∧
    ((setPrivateUnlockedEv st b).queue = st.queue ∧
      (setPrivateUnlockedEv st b).queueIndex = st.queueIndex) ∧
    ((toggleLikeEv st id).queue = st.queue ∧ (toggleLikeEv st id).queueIndex = st.queueIndex) :=
  ⟨⟨rfl, rfl⟩, ⟨rfl, rfl⟩, ⟨rfl, rfl⟩, ⟨rfl, rfl⟩, ⟨rfl, rfl⟩⟩

/-- C2.  Visibility gating: off the private route every visible song is
public; on the private route the list is empty while locked; unlocked, the
gate passes the whole catalog (so any song surviving the text filter is
visible, whatever its visibility); and the output never outgrows the
catalog. -/
theorem C2_visibility_gating (songs : List Song) (path : String) (u : Bool)
    (query m : String) (liked : List Nat) :
    (path ≠ "/private" →
      ∀ s ∈ visibleSongs songs path u query m liked, s.visibility = "public") ∧
    (path = "/private" → u = false → visibleSongs songs path u query m liked = []) ∧
    (path = "/private" → u = true →
      gateSongs songs path u = songs ∧
      ∀ s ∈ songs, (strToLower (strTrim query) = "" ∨
          matchesQuery (strToLower (strTrim query)) s = true) →
        s ∈ visibleSongs songs path u query m liked) ∧
    (visibleSongs songs path u query m liked).length ≤ songs.length := by
  refine ⟨?_, ?_, ?_, ?_⟩
  · intro hpath s hs
    have hf : s ∈ filteredSongs songs path u query :=
      (visibleSongs_perm_filteredSongs songs path u query m liked).mem_iff.mp hs
    have hg := mem_gate_of_mem_filtered hf
    rw [gateSongs, if_pos hpath] at hg
    simpa using (List.mem_filter.mp hg).2
  · rintro rfl rfl
    simp [visibleSongs, filteredSongs, gateSongs, sortSongs]
  · rintro rfl rfl
    refine ⟨by simp [gateSongs], ?_⟩
    intro s hs hq
    rw [(visibleSongs_perm_filteredSongs songs _ _ query m liked).mem_iff]
    have hgate : gateSongs songs "/private" true = songs := by simp [gateSongs]
    simp only [filteredSongs, hgate]
    by_cases hq0 : strToLower (strTrim query) = ""
    · rw [if_neg (by simp [hq0])]
      exact hs
    · rw [if_pos hq0]
      rcases hq with hq | hq
      · exact absurd hq hq0
      · exact List.mem_filter.mpr ⟨hs, hq⟩
  · calc (visibleSongs songs path u query m liked).length
        = (filteredSongs songs path u query).length :=
          (visibleSongs_perm_filteredSongs songs path u query m liked).length_eq
      _ ≤ songs.length := length_filteredSongs_le songs path u query

/-- Witness for C2 at a concrete state: on `/music` every visible sample song
is public, and on the locked `/private` route nothing is visible. -/
theorem C2_visibility_gating_witness :
    (∀ s ∈ visibleSongs [songA, songB, songC] "/music" false "" "newest" [],
      s.visibility = "public") ∧
    visibleSongs [songA, songB, songC] "/private" false "" "newest" [] = [] := by
  refine ⟨?_, ?_⟩
  · exact (C2_visibility_gating [songA, songB, songC] "/music" false "" "newest" []).1
      (by decide)
  · exact (C2_visibility_gating [songA, songB, songC] "/private" false "" "newest" []).2.1
      rfl rfl

/-- C3.  `stepQueue`: a no-op on an empty queue or absent cursor; otherwise
(for the `±1` directions its callers use) the queue and playing flag are
untouched and the cursor moves to `(cursor + direction) mod length`, which is
in bounds — in particular `step(+1)` at the last index wraps to `0` and
`step(-1)` at `0` wraps to `length - 1`. -/
theorem C3_stepQueue (st : AppState) (d : Int) :
    (st.queue = [] → stepQueue st d = st) ∧
    (st.queueIndex = none → stepQueue st d = st) ∧
    (∀ i : Nat, st.queue ≠ [] → st.queueIndex = some i → d = 1 ∨ d = -1 →
      (stepQueue st d).queue = st.queue ∧
      (stepQueue st d).isPlaying = st.isPlaying ∧
      (stepQueue st d).queueIndex =
        some ((((i : Int) + d).emod (st.queue.length : Int)).toNat) ∧
      ((((i : Int) + d).emod (st.queue.length : Int)).toNat) < st.queue.length) := by
  refine ⟨?_, ?_, ?_⟩
  · intro hq
    unfold stepQueue
    rw [if_pos (by simp [hq])]
  · intro hq
    unfold stepQueue
    split
    · rfl
    · rw [hq]
  · intro i hq hidx hd
    have hlen : 0 < st.queue.length := List.length_pos.mpr hq
    have hlenne : ¬ st.queue.length = 0 := by omega
    have hlenI : (0 : Int) < (st.queue.length : Int) := by exact_mod_cast hlen
    have key : ((i : Int) + d + (st.queue.length : Int)).tmod (st.queue.length : Int) =
        ((i : Int) + d).emod (st.queue.length : Int) := by
      have hnn : 0 ≤ (i : Int) + d + (st.queue.length : Int) := by
        rcases hd with rfl | rfl <;> omega
      rw [Int.tmod_eq_emod hnn (by omega)]
      exact Int.add_emod_self
    have hnn2 : 0 ≤ ((i : Int) + d).emod (st.queue.length : Int) :=
      Int.emod_nonneg _ (by omega)
    have hlt : ((i : Int) + d).emod (st.queue.length : Int) < (st.queue.length : Int) :=
      Int.emod_lt_of_pos _ hlenI
    simp only [stepQueue, if_neg hlenne, hidx, key]
    refine ⟨trivial, trivial, trivial, ?_⟩
    omega

/-- Witness for C3: with queue `[10, 20, 30]` and cursor `2`, `step(+1)` wraps
the cursor to `0`, leaving the queue as it was. -/
theorem C3_stepQueue_witness :
    (stepQueue stQ 1).queue = stQ.queue ∧ (stepQueue stQ 1).queueIndex = some 0 := by
  have h := (C3_stepQueue stQ 1).2.2 2 (by decide) rfl (Or.inl rfl)
  refine ⟨h.1, ?_⟩
  rw [h.2.2.1]
  decide

/-- C4.  `playBySong`: a song whose identifier is missing from the current
visible list (even one present in the full catalog) is a complete no-op;
a visible song installs the visible identifier sequence as the queue, puts
the cursor at that identifier's index, and starts playing. -/
theorem C4_playBySong (st : AppState) (song : Song) :
    (song.id ∉ st.visible.map (fun s => s.id) → playBySong st song = st) ∧
    (song.id ∈ st.visible.map (fun s => s.id) →
      (playBySong st song).queue = st.visible.map (fun s => s.id) ∧
      (playBySong st song).queueIndex = idxOf? song.id (st.visible.map (fun s => s.id)) ∧
      (playBySong st song).isPlaying = true) := by
  constructor
  · intro hmem
    have h0 : idxOf? song.id (st.visible.map (fun s => s.id)) = none :=
      idxOf?_eq_none_iff.mpr hmem
    simp only [playBySong, h0]
  · intro hmem
    obtain ⟨i, hi⟩ := idxOf?_isSome_of_mem hmem
    simp only [playBySong, hi]
    split
    · exact ⟨rfl, rfl, rfl⟩
    · exact ⟨rfl, rfl, rfl⟩

/-- Witness for C4: from the fresh `/music` state, playing `songA` (second in
the newest-first visible order `[songB, songA]`) snapshots the queue `[2, 1]`
with the cursor at index `1` and starts playback. -/
theorem C4_playBySong_witness :
    (playBySong st0 songA).queue = [2, 1] ∧
    (playBySong st0 songA).queueIndex = some 1 ∧
    (playBySong st0 songA).isPlaying = true := by
  have h := (C4_playBySong st0 songA).2 (by decide)
  refine ⟨?_, ?_, h.2.2⟩
  · rw [h.1]
    decide
  · rw [h.2.1]
    decide

instance : IsTrans Song dateRel :=
  ⟨fun a b c => dateLe_trans a b c⟩

instance : IsTotal Song dateRel :=
  ⟨fun a b => by
    have h := dateLe_total a b
    rw [Bool.or_eq_true] at h
    exact h⟩

instance (liked : List Nat) : IsTrans Song (likesRel liked) :=
  ⟨fun a b c => likesLe_trans liked a b c⟩

instance (liked : List Nat) : IsTotal Song (likesRel liked) :=
  ⟨fun a b => by
    have h := likesLe_total liked a b
    rw [Bool.or_eq_true] at h
    exact h⟩

instance : IsTrans Song titleRel :=
  ⟨fun a b c => titleLe_trans a b c⟩

instance : IsTotal Song titleRel :=
  ⟨fun a b => by
    have h := titleLe_total a b
    rw [Bool.or_eq_true] at h
    exact h⟩

/-- A populated store for the import scenarios. -/
def store0 : StoreState :=
  { songs := Json.arr [Json.str "song-entry"],
    liked := Json.obj [("1", Json.bool true)],
    comments := Json.obj [], guestbook := Json.arr [],
    privateUnlocked := Json.bool false, sortMode := Json.str "newest" }

/-- C6 counterexample: importing a payload whose top level is a JSON array is
NOT reported as a failure — `typeof [] === "object"`, so the array passes the
top-level guard, no field guard fires, and the operation reports
`"Import complete."` (the state is nevertheless unchanged).  This refutes the
claim that such an import "fails and failure is reported to the user". -/
theorem C6_array_import_not_reported :
    onImportFile store0 (some (Json.arr [Json.num 1])) = (store0, "Import complete.") ∧
    "Import complete." ≠ "Import failed: invalid JSON." := by
  constructor
  · rfl
  · decide

/-- C6 amended.  Unparsable payloads and falsy or non-`object` top levels
(`null`, booleans, numbers, strings) fail the whole import with a failure
report and leave every slice unchanged; a top-level JSON array also leaves
every slice unchanged, but is not rejected: the operation reports
completion. -/
theorem C6_import_atomicity (st : StoreState) (payload : Option Json) :
    (payload = none → onImportFile st payload = (st, "Import failed: invalid JSON.")) ∧
    (∀ j, payload = some j → (j.truthy = false ∨ j.typeofIsObject = false) →
      onImportFile st payload = (st, "Import failed: invalid JSON.")) ∧
    (∀ xs, payload = some (Json.arr xs) →
      onImportFile st payload = (st, "Import complete.")) := by
  refine ⟨?_, ?_, ?_⟩
  · rintro rfl
    rfl
  · rintro j rfl hj
    have hcond : (!j.truthy || !j.typeofIsObject) = true := by
      rcases hj with h | h <;> simp [h]
    simp only [onImportFile]
    rw [if_pos hcond]
  · rintro xs rfl
    rfl

/-- Witness for C6 (amended): at the populated store, a missing parse and a
numeric top level fail without touching the store, while an array top level
leaves the store untouched but reports completion. -/
theorem C6_import_atomicity_witness :
    onImportFile store0 none = (store0, "Import failed: invalid JSON.") ∧
    onImportFile store0 (some (Json.num 7)) = (store0, "Import failed: invalid JSON.") ∧
    onImportFile store0 (some (Json.arr [])) = (store0, "Import complete.") :=
  ⟨(C6_import_atomicity store0 none).1 rfl,
   (C6_import_atomicity store0 (some (Json.num 7))).2.1 (Json.num 7) rfl (Or.inr rfl),
   (C6_import_atomicity store0 (some (Json.arr []))).2.2 [] rfl⟩

/-- C7.  Text filter: with the trimmed, case-folded search text non-empty,
the visible list consists exactly (up to the ordering stage) of the gated
songs whose title, genre, or space-joined moods contain the text as a
case-insensitive substring; with it empty, the filter keeps every gated
song. -/
theorem C7_text_filter (songs : List Song) (path : String) (u : Bool)
    (query m : String) (liked : List Nat) :
    (strToLower (strTrim query) ≠ "" →
      List.Perm (visibleSongs songs path u query m liked)
        ((gateSongs songs path u).filter (matchesQuery (strToLower (strTrim query))))) ∧
    (strToLower (strTrim query) = "" →
      List.Perm (visibleSongs songs path u query m liked) (gateSongs songs path u)) := by
  constructor
  · intro hq
    have h := visibleSongs_perm_filteredSongs songs path u query m liked
    simp only [filteredSongs] at h
    rwa [if_pos hq] at h
  · intro hq
    have h := visibleSongs_perm_filteredSongs songs path u query m liked
    simp only [filteredSongs] at h
    rwa [if_neg (by simp [hq])] at h

/-- Witness for C7: searching "Rock" over the sample catalog keeps exactly
the gated songs matching "rock". -/
theorem C7_text_filter_witness :
    List.Perm (visibleSongs [songA, songB, songC] "/music" false "Rock" "newest" [])
      ((gateSongs [songA, songB, songC] "/music" false).filter
        (matchesQuery (strToLower (strTrim "Rock")))) :=
  (C7_text_filter [songA, songB, songC] "/music" false "Rock" "newest" []).1 (by decide)

/-- C8.  Ordering by sort mode: any mode other than `liked` and `az` sorts
exactly as `newest`; `newest` output is descending in the release-date key
with date ties keeping their original relative order (stability of the sort);
`liked` output is descending in baseline likes plus the overlay bonus; `az`
output is ascending in the (locale-modelled) title comparison. -/
theorem C8_sort_modes (songs : List Song) (path : String) (u : Bool)
    (query : String) (liked : List Nat) (m : String) :
    (m ≠ "liked" → m ≠ "az" →
      visibleSongs songs path u query m liked =
        visibleSongs songs path u query "newest" liked) ∧
    (visibleSongs songs path u query "newest" liked).Pairwise
      (fun a b => dateVal b.releaseDate ≤ dateVal a.releaseDate) ∧
    (∀ a b : Song, dateVal a.releaseDate = dateVal b.releaseDate →
      List.Sublist [a, b] (filteredSongs songs path u query) →
      List.Sublist [a, b] (visibleSongs songs path u query "newest" liked)) ∧
    (visibleSongs songs path u query "liked" liked).Pairwise
      (fun a b => likeWeight liked b ≤ likeWeight liked a) ∧
    (visibleSongs songs path u query "az" liked).Pairwise
      (fun a b => localeLe a.title b.title = true) := by
  have heNew : visibleSongs songs path u query "newest" liked =
      List.insertionSort dateRel (filteredSongs songs path u query) := by
    simp [visibleSongs, sortSongs]
  have heLiked : visibleSongs songs path u query "liked" liked =
      List.insertionSort (likesRel liked) (filteredSongs songs path u query) := by
    simp [visibleSongs, sortSongs]
  have heAz : visibleSongs songs path u query "az" liked =
      List.insertionSort titleRel (filteredSongs songs path u query) := by
    simp [visibleSongs, sortSongs]
  refine ⟨?_, ?_, ?_, ?_, ?_⟩
  · intro h1 h2
    have hb1 : (m == "liked") = false := beq_eq_false_iff_ne.mpr h1
    have hb2 : (m == "az") = false := beq_eq_false_iff_ne.mpr h2
    simp [visibleSongs, sortSongs, hb1, hb2]
  · rw [heNew]
    exact (List.sorted_insertionSort dateRel (filteredSongs songs path u query)).imp
      (fun {x y} h => by simpa [dateRel, dateLe] using h)
  · intro a b hdate hsub
    rw [heNew]
    refine List.pair_sublist_insertionSort ?_ hsub
    show dateLe a b = true
    simp [dateLe]
    omega
  · rw [heLiked]
    exact (List.sorted_insertionSort (likesRel liked)
        (filteredSongs songs path u query)).imp
      (fun {x y} h => by simpa [likesRel, likesLe] using h)
  · rw [heAz]
    exact (List.sorted_insertionSort titleRel (filteredSongs songs path u query)).imp
      (fun {x y} h => h)

/-- The sample catalog reordered so that the two date-tied songs
(`songA`, `songD`) surround `songB` in catalog order. -/
def stSortSongs : List Song := [songA, songD, songB]

/-- Witness for C8: an unrecognised mode string sorts like `newest`, and the
date-tied pair `[songA, songD]` keeps its original relative order in the
`newest` output. -/
theorem C8_sort_modes_witness :
    visibleSongs stSortSongs "/music" false "" "shuffle" [] =
      visibleSongs stSortSongs "/music" false "" "newest" [] ∧
    List.Sublist [songA, songD] (visibleSongs stSortSongs "/music" false "" "newest" []) := by
  have h := C8_sort_modes stSortSongs "/music" false "" [] "shuffle"
  refine ⟨h.1 (by decide) (by decide), ?_⟩
  refine h.2.2.1 songA songD rfl ?_
  show List.Sublist [songA, songD] (filteredSongs stSortSongs "/music" false "")
  have he : filteredSongs stSortSongs "/music" false "" = [songA, songD, songB] := rfl
  rw [he]
  exact List.Sublist.cons₂ songA (List.Sublist.cons₂ songD (List.nil_sublist [songB]))

/-- C9.  `playAllVisible`: with an empty visible list the call is a complete
no-op; with a non-empty visible list it snapshots all visible identifiers as
the queue, puts the cursor at `0`, and starts playing. -/
theorem C9_playAllVisible (st : AppState) :
    (st.visible = [] → playAllVisible st = st) ∧
    (st.visible ≠ [] →
      (playAllVisible st).queue = st.visible.map (fun s => s.id) ∧
      (playAllVisible st).queueIndex = some 0 ∧
      (playAllVisible st).isPlaying = true) := by
  constructor
  · intro h
    simp only [playAllVisible, h]
    rfl
  · intro h
    have hlen : ¬ st.visible.length = 0 := fun hc => h (List.length_eq_zero.mp hc)
    simp only [playAllVisible]
    rw [if_neg hlen]
    refine ⟨?_, ?_, ?_⟩
    all_goals
      split
      · rfl
      · split
        · rfl
        · split
          · rfl
          · rfl

/-- A session whose catalog is empty, so nothing is visible. -/
def stEmpty : AppState :=
  { st0 with songs := [] }

/-- Witness for C9: with no visible songs `playAllVisible` changes nothing;
from the fresh sample state it snapshots `[2, 1]`, cursor `0`, playing. -/
theorem C9_playAllVisible_witness :
    playAllVisible stEmpty = stEmpty ∧
    (playAllVisible st0).queue = [2, 1] ∧
    (playAllVisible st0).queueIndex = some 0 ∧
    (playAllVisible st0).isPlaying = true := by
  have h1 := (C9_playAllVisible stEmpty).1 (by decide)
  have h2 := (C9_playAllVisible st0).2 (by decide)
  refine ⟨h1, ?_, h2.2.1, h2.2.2⟩
  rw [h2.1]
  decide

/-- A fresh `part_000` session on the music page with the sample catalog. -/
def stB0 : AppStateB :=
  { path := "/music", query := "", songs := [songA, songB, songC],
    liked := [], privateUnlocked := false, sortMode := "newest",
    activeIndex := none, isPlaying := false }

/-- C10 counterexample: the claimed behavioural equivalence fails.  In the
`part_000` variant the player indexes the *live* visible list: after playing
`songA` (index `1` of the newest-first order `[songB, songA]`), switching the
sort mode to `az` reorders the visible list to `[songA, songB]`, so the same
index now resolves to `songB` — the currently-playing song changes. -/
theorem C10_live_index_moves :
    currentSongB (playBySongB stB0 songA) = some songA ∧
    currentSongB (setSortModeEvB (playBySongB stB0 songA) "az") = some songB ∧
    ¬ (currentSongB (setSortModeEvB (playBySongB stB0 songA) "az") =
        currentSongB (playBySongB stB0 songA)) := by
  refine ⟨?_, ?_, ?_⟩ <;> decide

/-- C10 amended.  Only the snapshot variant (`src/src/App.tsx`) guarantees the
play-then-filter property: its current song is resolved from the frozen queue,
so search-text and sort-mode changes never move it.  The `part_000` variant
resolves the current song from the live visible list and does not share the
property (see the counterexample), so the two variants are not behaviorally
equivalent. -/
theorem C10_snapshot_current_song_stable (st : AppState) (q m : String) :
    currentSongOf (setQueryEv st q) = currentSongOf st ∧
    currentSongOf (setSortModeEv st m) = currentSongOf st :=
  ⟨rfl, rfl⟩
